import Mathlib

/-!
Verification development for the AI-Interview-API response-evaluation
pipeline.  The Python sources under `app/` are shallowly embedded below:
pure text analysis becomes Lean functions on `String` (viewed through its
character list), Python `float` arithmetic on the small score values is
modelled exactly with `ℚ`, Python `int` with `ℤ`/`ℕ`, Python `None` with
`Option`, and the two external services (the OpenAI scoring oracle and the
narrative generator) become explicit outcome parameters, since their
answers are free inputs to the code under verification.
-/

/-- Python `int(x)` applied to a float: truncation toward zero (the floor
for nonnegative arguments, the ceiling for negative ones). -/
def pyInt (q : ℚ) : ℤ := if 0 ≤ q then ⌊q⌋ else ⌈q⌉

/-- Python `min` on two floats, written with a plain conditional so that
the kernel can evaluate it. -/
def ratMin (a b : ℚ) : ℚ := if a ≤ b then a else b

/-- Python `max` on two floats. -/
def ratMax (a b : ℚ) : ℚ := if b ≤ a then a else b

/-- Python `min` on two machine integers. -/
def intMin (a b : ℤ) : ℤ := if a ≤ b then a else b

/-- Python `max` on two machine integers. -/
def intMax (a b : ℤ) : ℤ := if b ≤ a then a else b

/-- Characters Python `str.strip()` removes at both ends (whitespace). -/
def stripChars (l : List Char) : List Char :=
  ((l.dropWhile Char.isWhitespace).reverse.dropWhile Char.isWhitespace).reverse

/-- Python `s.strip()`. -/
def pyStrip (s : String) : String := String.mk (stripChars s.data)

/-- Helper for splitting a character list on a delimiter class, dropping
empty pieces, as Python `str.split()` does (`acc` holds the current word,
reversed). -/
def wordsByAux (p : Char → Bool) : List Char → List Char → List (List Char)
  | [], acc => if acc.isEmpty then [] else [acc.reverse]
  | c :: t, acc =>
      if p c then
        if acc.isEmpty then wordsByAux p t [] else acc.reverse :: wordsByAux p t []
      else wordsByAux p t (c :: acc)

/-- Python `text.split()`: split on whitespace runs, no empty pieces. -/
def pySplit (s : String) : List String :=
  (wordsByAux Char.isWhitespace s.data []).map String.mk

/-- Sentence-delimiter class of the regex `[.!?]+` used throughout
`nlp_scorer.py`. -/
def isSentenceDelim (c : Char) : Bool := c = '.' || c = '!' || c = '?'

/-- The sentence list `[s.strip() for s in re.split(r'[.!?]+', text) if s.strip()]`:
splitting on delimiter runs, stripping each piece and dropping the empty
ones is the same as collecting the non-delimiter runs, stripping, and
dropping pieces that strip to nothing. -/
def splitSentences (s : String) : List String :=
  (((wordsByAux isSentenceDelim s.data []).map String.mk).map pyStrip).filter
    (fun t => t ≠ "")

/-- Number of pieces `re.split(r'[.!?]+', text)` returns, empty pieces
included: one more than the number of maximal delimiter runs.  Used by the
readability approximations. -/
def rawSentenceCount (s : String) : ℕ :=
  (wordsByAux (fun c => !isSentenceDelim c) s.data []).length + 1

/-- Python `' '.join(ws)` over character lists. -/
def joinSpaceChars : List (List Char) → List Char
  | [] => []
  | [w] => w
  | w :: ws => w ++ ' ' :: joinSpaceChars ws

/-- Python `' '.join(text.split())`. -/
def joinSpace (ws : List String) : String :=
  String.mk (joinSpaceChars (ws.map String.data))

/-- Python `s.lower()` (ASCII case folding, which covers the inputs the
analyzers compare against their all-ASCII lexicons). -/
def strLower (s : String) : String := String.mk (s.data.map Char.toLower)

/-- Does `l` start with `pre`? -/
def startsWithChars : List Char → List Char → Bool
  | [], _ => true
  | _ :: _, [] => false
  | a :: as, b :: bs => a = b && startsWithChars as bs

/-- Does `hay` contain `needle` as a contiguous run? -/
def containsChars (needle : List Char) : List Char → Bool
  | [] => needle.isEmpty
  | c :: t => startsWithChars needle (c :: t) || containsChars needle t

/-- Python `needle in hay` on strings: substring containment. -/
def strContains (hay needle : String) : Bool := containsChars needle.data hay.data

/-- The filler-word set of `NLPScorer.__init__` (nlp_scorer.py lines 47-51). -/
def filler_words : List String :=
  ["um", "uh", "like", "you know", "so", "well", "actually",
   "basically", "literally", "obviously", "definitely", "totally",
   "really", "very", "quite", "sort of", "kind of"]

/-- Positive confidence indicators (nlp_scorer.py lines 55-56). -/
def confidence_positive : List String :=
  ["confident", "certain", "sure", "definitely", "absolutely",
   "clearly", "obviously", "undoubtedly", "precisely"]

/-- Negative (hedging) confidence indicators (nlp_scorer.py lines 57-58). -/
def confidence_negative : List String :=
  ["maybe", "perhaps", "possibly", "might", "could be",
   "not sure", "uncertain", "unclear", "confused"]

/-- Positive sentiment lexicon (nlp_scorer.py lines 156-157; reachable only
through the disabled spaCy branch, kept for comparison with the spec). -/
def positive_words : List String :=
  ["good", "great", "excellent", "successful", "achieved",
   "accomplished", "effective", "efficient", "improved"]

/-- Negative sentiment lexicon (nlp_scorer.py lines 158-159). -/
def negative_words : List String :=
  ["bad", "poor", "failed", "difficult", "challenging",
   "problem", "issue", "mistake", "error"]

/-- Result of `NLPScorer._analyze_basic_metrics`. -/
structure BasicMetrics where
  word_count : ℕ
  sentence_count : ℕ
  unique_words : ℕ
  avg_words_per_sentence : ℚ
  filler_words_count : ℕ
  filler_words_ratio : ℚ
  readability_score : ℚ
  grade_level : ℚ
  deriving Repr, DecidableEq

/-- `simple_flesch_reading_ease` (nlp_scorer.py lines 14-21).  The raw
`re.split` sentence count is never zero (it is one more than the number of
delimiter runs), so the guard only fires for empty word lists. -/
def simple_flesch_reading_ease (text : String) : ℚ :=
  let words : ℕ := (pySplit text).length
  let sentences : ℕ := rawSentenceCount text
  if sentences = 0 ∨ words = 0 then 50
  else
    let avg_sentence_length : ℚ := (words : ℚ) / (sentences : ℚ)
    ratMax 0 (ratMin 100 (206835 / 1000 - (1015 / 1000 * avg_sentence_length)))

/-- `simple_flesch_kincaid_grade` (nlp_scorer.py lines 23-30). -/
def simple_flesch_kincaid_grade (text : String) : ℚ :=
  let words : ℕ := (pySplit text).length
  let sentences : ℕ := rawSentenceCount text
  if sentences = 0 ∨ words = 0 then 8
  else
    let avg_sentence_length : ℚ := (words : ℚ) / (sentences : ℚ)
    ratMax 0 ((39 / 100 * avg_sentence_length) + 118 / 10 - 1559 / 100)

/-- `NLPScorer._analyze_basic_metrics` (nlp_scorer.py lines 120-146). -/
def analyze_basic_metrics (text : String) : BasicMetrics :=
  let words := pySplit text
  let sentences := splitSentences text
  let filler_count := (words.filter (fun w => filler_words.contains (strLower w))).length
  { word_count := words.length
    sentence_count := sentences.length
    unique_words := ((words.map strLower).dedup).length
    avg_words_per_sentence := (words.length : ℚ) / (Nat.max sentences.length 1 : ℕ)
    filler_words_count := filler_count
    filler_words_ratio := (filler_count : ℚ) / (Nat.max words.length 1 : ℕ)
    readability_score := simple_flesch_reading_ease text
    grade_level := simple_flesch_kincaid_grade text }

/-- Result of `NLPScorer._analyze_sentiment`. -/
structure SentimentAnalysis where
  sentiment_score : ℚ
  emotional_tone : String
  deriving Repr, DecidableEq

/-- `NLPScorer._analyze_sentiment` (nlp_scorer.py lines 148-180).
`__init__` sets `self.nlp = None` unconditionally (line 44, "spaCy disabled
for compatibility"), so the guard `if not self.nlp` always takes the early
return: the word-polarity counting further down the method is unreachable
and every call yields the neutral result. -/
def analyze_sentiment (_text : String) : SentimentAnalysis :=
  { sentiment_score := 0, emotional_tone := "neutral" }

/-- The sentiment computation as the spec describes it (count fixed
positive/negative word lists, normalize by total word count, clamp to
[-1,1]), written out for comparison with the code's actual behaviour. -/
def spec_described_sentiment (text : String) : ℚ :=
  let words := (pySplit text).map strLower
  let pos := (words.filter (fun w => positive_words.contains w)).length
  let neg := (words.filter (fun w => negative_words.contains w)).length
  ratMax (-1) (ratMin 1 (((pos : ℚ) - (neg : ℚ)) / (Nat.max words.length 1 : ℕ)))

/-- Result of `NLPScorer._analyze_structure`. -/
structure StructureAnalysis where
  structure_score : ℕ
  has_introduction : Bool
  has_body : Bool
  has_conclusion : Bool
  sentence_variety : ℕ
  deriving Repr, DecidableEq

/-- Cue phrases of `_analyze_structure` (nlp_scorer.py lines 188-192). -/
def intro_words : List String := ["first", "initially", "to begin", "starting"]

/-- Body/transition cue phrases. -/
def body_words : List String := ["then", "next", "after", "following", "subsequently"]

/-- Conclusion cue phrases. -/
def conclusion_words : List String := ["finally", "in conclusion", "to summarize", "overall"]

/-- `NLPScorer._analyze_structure` (nlp_scorer.py lines 182-219). -/
def analyze_structure (text : String) : StructureAnalysis :=
  let sentences := splitSentences text
  let cue (ws : List String) (s : String) : Bool :=
    ws.any (fun w => strContains (strLower s) w)
  let has_intro := (sentences.take 2).any (cue intro_words)
  let has_body := sentences.any (cue body_words)
  let has_conclusion := (sentences.drop (sentences.length - 2)).any (cue conclusion_words)
  let score : ℕ :=
    (if has_intro then 30 else 0) + (if has_body then 40 else 0) +
    (if has_conclusion then 30 else 0) + (if sentences.length ≥ 3 then 10 else 0)
  { structure_score := Nat.min 100 score
    has_introduction := has_intro
    has_body := has_body
    has_conclusion := has_conclusion
    sentence_variety := ((sentences.map (fun s => (pySplit s).length)).dedup).length }

/-- Result of `NLPScorer._analyze_confidence`. -/
structure ConfidenceAnalysis where
  confidence_score : ℚ
  positive_indicators : ℕ
  negative_indicators : ℕ
  confidence_level : String
  deriving Repr, DecidableEq

/-- `NLPScorer._analyze_confidence` (nlp_scorer.py lines 221-242): counts
how many lexicon entries occur as substrings of the lowercased text. -/
def analyze_confidence (text : String) : ConfidenceAnalysis :=
  let text_lower := strLower text
  let pos := (confidence_positive.filter (fun w => strContains text_lower w)).length
  let neg := (confidence_negative.filter (fun w => strContains text_lower w)).length
  let score : ℚ := if pos + neg = 0 then 1 / 2 else (pos : ℚ) / ((pos : ℚ) + (neg : ℚ))
  { confidence_score := score
    positive_indicators := pos
    negative_indicators := neg
    confidence_level :=
      if score > 7 / 10 then "high" else if score > 3 / 10 then "medium" else "low" }

/-- `NLPScorer._preprocess_text` (nlp_scorer.py lines 110-118): collapse
whitespace, drop characters outside `[\w\s.,!?;:\-()]`, strip.  The word
class `\w` is modelled over ASCII alphanumerics and underscore, which
covers every lexicon entry and concrete input compared in this file. -/
def preprocess_text (text : String) : String :=
  let joined := joinSpace (pySplit text)
  let kept := joined.data.filter (fun c =>
    c.isAlphanum || c = '_' || c.isWhitespace ||
    [',', '.', '!', '?', ';', ':', '-', '(', ')'].contains c)
  pyStrip (String.mk kept)

/-- `clean_text_input` (validators.py lines 115-129): collapse whitespace,
keep characters with code point at least 32 plus newline/tab, strip. -/
def clean_text_input (text : String) : String :=
  if text = "" then ""
  else
    let joined := joinSpace (pySplit text)
    let kept := joined.data.filter (fun c => 32 ≤ c.toNat || c = '\n' || c = '\t')
    pyStrip (String.mk kept)

/-- The numeric and list fields of a successfully JSON-decoded oracle
response, before any validation (`json.loads` result of
`_parse_ai_response`).  JSON numbers are modelled as `ℚ`, an absent key as
`none`; a response whose scores are not numbers at all falls under the
unparseable case, since the later `int()` conversion raises and the
enclosing `try` sends execution to the fallback. -/
structure ParsedOracle where
  content_relevance : Option ℚ
  communication_clarity : Option ℚ
  structure_organization : Option ℚ
  technical_accuracy : Option ℚ
  strengths : List String
  weaknesses : List String
  suggestions : List String
  deriving Repr, DecidableEq

/-- The dictionary `_get_ai_scores` hands to `_calculate_final_scores`:
either the (partially clamped) parse result or the fallback judgment. -/
structure AIScores where
  content_relevance : Option ℚ
  communication_clarity : Option ℚ
  structure_organization : Option ℚ
  technical_accuracy : Option ℚ
  strengths : List String
  weaknesses : List String
  suggestions : List String
  deriving Repr, DecidableEq

/-- `NLPScorer._get_fallback_scores` (nlp_scorer.py lines 318-333):
a length-derived base `min(85, max(40, word_count * 2))`, clarity five and
structure ten below it, technical equal to it only for technical
questions, plus fixed strengths/weaknesses/suggestions. -/
def get_fallback_scores (text : String) (question_type : String) : AIScores :=
  let word_count : ℕ := (pySplit text).length
  let base_score : ℚ := ratMin 85 (ratMax 40 ((word_count : ℚ) * 2))
  { content_relevance := some base_score
    communication_clarity := some (base_score - 5)
    structure_organization := some (base_score - 10)
    technical_accuracy := if question_type = "technical" then some base_score else none
    strengths := ["Response provided", "Attempted to answer", "Used appropriate language"]
    weaknesses := ["Could be more detailed", "Could improve structure", "Could add examples"]
    suggestions := ["Provide more specific examples", "Organize response better",
                    "Expand on key points"] }

/-- `NLPScorer._parse_ai_response` (nlp_scorer.py lines 298-316).  When a
JSON object was extracted, the three keys `content_relevance`,
`communication_clarity` and `structure_organization` are, if present,
converted with `int()` and clamped into [0,100]; `technical_accuracy` is
left untouched.  When no JSON object can be extracted (or decoding/`int()`
raises), the fallback is taken with the EMPTY string and question type
`"general"`. -/
def parse_ai_response (parsed : Option ParsedOracle) : AIScores :=
  match parsed with
  | some r =>
      let clamp (v : ℚ) : ℚ := (intMax 0 (intMin 100 (pyInt v)) : ℤ)
      { content_relevance := r.content_relevance.map clamp
        communication_clarity := r.communication_clarity.map clamp
        structure_organization := r.structure_organization.map clamp
        technical_accuracy := r.technical_accuracy
        strengths := r.strengths
        weaknesses := r.weaknesses
        suggestions := r.suggestions }
  | none => get_fallback_scores "" "general"

/-- Outcome of the one request `_get_ai_scores` issues to the scoring
service: the service answered (with `json.loads`-level content as in
`ParsedOracle`, or nothing parseable), or the request raised. -/
inductive OracleOutcome where
  | ok (parsed : Option ParsedOracle)
  | error
  deriving Repr, DecidableEq

/-- `NLPScorer._get_ai_scores` (nlp_scorer.py lines 244-264): on a service
exception the fallback is computed from the analyzed text and the actual
question type; otherwise the response is parsed. -/
def get_ai_scores (text : String) (_question question_type : String)
    (outcome : OracleOutcome) : AIScores :=
  match outcome with
  | .ok parsed => parse_ai_response parsed
  | .error => get_fallback_scores text question_type

/-- The score dictionary `_calculate_final_scores` returns, which
`process_text_response` / `process_audio_response` persist verbatim. -/
structure FinalScores where
  overall_score : ℤ
  content_relevance_score : ℤ
  communication_clarity_score : ℤ
  structure_organization_score : ℤ
  technical_accuracy_score : Option ℤ
  sentiment_score : ℚ
  confidence_indicators : ℕ
  filler_words_count : ℕ
  word_count : ℕ
  unique_words_count : ℕ
  deriving Repr, DecidableEq

/-- `NLPScorer._calculate_final_scores` (nlp_scorer.py lines 335-374).
Note two Python details carried over exactly: `overall_score` uses
`int()`, i.e. truncation toward zero, and the stored technical score is
`int(technical_score) if technical_score else None`, a truthiness test
that maps both `None` and `0` to `None` and ignores the question type. -/
def calculate_final_scores (basic : BasicMetrics) (sentiment : SentimentAnalysis)
    (struct : StructureAnalysis) (confidence : ConfidenceAnalysis)
    (ai : AIScores) (question_type : String) : FinalScores :=
  let content_score : ℚ := ai.content_relevance.getD 70
  let clarity_base : ℚ := ai.communication_clarity.getD 70
  let structure_base : ℚ := ai.structure_organization.getD 70
  let technical_score : Option ℚ := ai.technical_accuracy
  let filler_penalty : ℚ := ratMin 20 (basic.filler_words_ratio * 100)
  let clarity_score : ℚ := ratMax 0 (clarity_base - filler_penalty)
  let structure_bonus : ℚ := ((struct.structure_score : ℚ) - 70) * (3 / 10)
  let structure_score : ℚ := ratMax 0 (ratMin 100 (structure_base + structure_bonus))
  let scores : List ℚ :=
    [content_score, clarity_score, structure_score] ++
    (match technical_score with
     | some t => if question_type = "technical" then [t] else []
     | none => [])
  { overall_score := pyInt (scores.sum / (scores.length : ℚ))
    content_relevance_score := pyInt content_score
    communication_clarity_score := pyInt clarity_score
    structure_organization_score := pyInt structure_score
    technical_accuracy_score :=
      match technical_score with
      | some t => if t = 0 then none else some (pyInt t)
      | none => none
    sentiment_score := sentiment.sentiment_score
    confidence_indicators := confidence.positive_indicators
    filler_words_count := basic.filler_words_count
    word_count := basic.word_count
    unique_words_count := basic.unique_words }

/-- Outcome of the narrative request `_generate_feedback` issues. -/
inductive NarrativeOutcome where
  | ok (text : String)
  | error
  deriving Repr, DecidableEq

/-- The dictionary `_generate_feedback` returns (nlp_scorer.py lines
376-414).  It carries exactly two keys; the pipeline later reads
`strengths` / `weaknesses` / `suggestions` from it with `.get(_, [])`, so
those are modelled as the `Option` fields they would be, always `none`
here. -/
structure Feedback where
  detailed_feedback : String
  improvement_tips : String
  strengths : Option (List String)
  weaknesses : Option (List String)
  suggestions : Option (List String)
  deriving Repr, DecidableEq

/-- `NLPScorer._generate_fallback_feedback` (nlp_scorer.py lines 416-425). -/
def generate_fallback_feedback (scores : FinalScores) : String :=
  if scores.overall_score ≥ 80 then
    "Excellent response! You demonstrated strong communication skills and provided relevant content."
  else if scores.overall_score ≥ 60 then
    "Good response with room for improvement. Consider adding more specific examples and improving organization."
  else
    "Your response shows effort, but could benefit from better structure and more detailed content."

/-- `NLPScorer._generate_improvement_tips` (nlp_scorer.py lines 427-446). -/
def generate_improvement_tips (scores : FinalScores) (metrics : BasicMetrics) : String :=
  let tips : List String :=
    (if scores.communication_clarity_score < 70 then
      ["Practice speaking more clearly and reduce filler words"] else []) ++
    (if scores.structure_organization_score < 70 then
      ["Use the STAR method (Situation, Task, Action, Result) to structure your responses"]
     else []) ++
    (if metrics.word_count < 50 then
      ["Provide more detailed responses with specific examples"] else []) ++
    (if metrics.filler_words_count > 5 then
      ["Practice reducing filler words like 'um', 'uh', and 'like'"] else [])
  let tips := if tips.isEmpty then
    ["Continue practicing to maintain your strong performance"] else tips
  String.intercalate "; " tips

/-- `NLPScorer._generate_feedback` (nlp_scorer.py lines 376-414): the
narrative text comes from the generator when it answers, otherwise from
`_generate_fallback_feedback`; the returned dictionary holds only
`detailed_feedback` and `improvement_tips`. -/
def generate_feedback (scores : FinalScores) (metrics : BasicMetrics)
    (outcome : NarrativeOutcome) : Feedback :=
  { detailed_feedback :=
      match outcome with
      | .ok t => t
      | .error => generate_fallback_feedback scores
    improvement_tips := generate_improvement_tips scores metrics
    strengths := none
    weaknesses := none
    suggestions := none }

/-- The parts of `NLPScorer.score_response`'s result the pipeline
consumes (the `metrics` entry of the returned dictionary is never read by
the background tasks and is omitted). -/
structure ScoringResult where
  scores : FinalScores
  feedback : Feedback
  deriving Repr, DecidableEq

/-- `NLPScorer._create_empty_score` (nlp_scorer.py lines 448-468). -/
def create_empty_score : ScoringResult :=
  { scores :=
      { overall_score := 0
        content_relevance_score := 0
        communication_clarity_score := 0
        structure_organization_score := 0
        technical_accuracy_score := none
        sentiment_score := 0
        confidence_indicators := 0
        filler_words_count := 0
        word_count := 0
        unique_words_count := 0 }
    feedback :=
      { detailed_feedback := "No response provided for analysis."
        improvement_tips := "Please provide a response to receive feedback."
        strengths := none
        weaknesses := none
        suggestions := none } }

/-- `NLPScorer.score_response` (nlp_scorer.py lines 61-108).  Python's
`if not text or not text.strip()` is equivalent to the stripped text being
empty.  The oracle and narrative outcomes parameterize the two external
calls. -/
def score_response (text question question_type : String)
    (oracle : OracleOutcome) (narrative : NarrativeOutcome) : ScoringResult :=
  if pyStrip text = "" then create_empty_score
  else
    let processed_text := preprocess_text text
    let basic := analyze_basic_metrics processed_text
    let sentiment := analyze_sentiment processed_text
    let struct := analyze_structure processed_text
    let confidence := analyze_confidence processed_text
    let ai := get_ai_scores processed_text question question_type oracle
    let final := calculate_final_scores basic sentiment struct confidence ai question_type
    { scores := final
      feedback := generate_feedback final basic narrative }

/-- The fields of the `InterviewResponse` row that the submission
endpoints set at creation (models/response.py; interview.py lines 108-119
and 182-191). -/
structure InterviewResponse where
  user_id : ℕ
  question_id : ℕ
  original_text : Option String
  processed_text : Option String
  status : String
  deriving Repr, DecidableEq

/-- The record-creation step of `submit_text_response` (interview.py lines
108-119): after validation passes, the row is inserted with
`status="processing"` and committed before the background task is
scheduled. -/
def submit_text_response (user_id question_id : ℕ) (text_response : String) :
    InterviewResponse :=
  { user_id := user_id
    question_id := question_id
    original_text := some text_response
    processed_text := some (clean_text_input text_response)
    status := "processing" }

/-- The record-creation step of `submit_audio_response` (interview.py
lines 182-191): the row is inserted with `status="processing"` and no text
fields. -/
def submit_audio_response (user_id question_id : ℕ) : InterviewResponse :=
  { user_id := user_id
    question_id := question_id
    original_text := none
    processed_text := none
    status := "processing" }

/-- The persisted `ResponseScore` row (models/response.py lines 48-88),
with the fields the background tasks fill. -/
structure ScoreRecord where
  response_id : ℕ
  overall_score : ℤ
  content_relevance_score : ℤ
  communication_clarity_score : ℤ
  structure_organization_score : ℤ
  technical_accuracy_score : Option ℤ
  sentiment_score : ℚ
  confidence_indicators : ℕ
  filler_words_count : ℕ
  word_count : ℕ
  unique_words_count : ℕ
  strengths : List String
  weaknesses : List String
  suggestions : List String
  detailed_feedback : String
  improvement_tips : String
  scoring_model_version : String
  deriving Repr, DecidableEq

/-- The `ResponseScore(...)` literal both background tasks build
(interview.py lines 453-471 and 540-558): score fields are copied from
`scoring_result['scores']`, and the three lists are read from
`scoring_result['feedback']` with `.get(_, [])` — a dictionary that never
carries those keys, so the default always applies. -/
def mk_response_score (response_id : ℕ) (r : ScoringResult) : ScoreRecord :=
  { response_id := response_id
    overall_score := r.scores.overall_score
    content_relevance_score := r.scores.content_relevance_score
    communication_clarity_score := r.scores.communication_clarity_score
    structure_organization_score := r.scores.structure_organization_score
    technical_accuracy_score := r.scores.technical_accuracy_score
    sentiment_score := r.scores.sentiment_score
    confidence_indicators := r.scores.confidence_indicators
    filler_words_count := r.scores.filler_words_count
    word_count := r.scores.word_count
    unique_words_count := r.scores.unique_words_count
    strengths := r.feedback.strengths.getD []
    weaknesses := r.feedback.weaknesses.getD []
    suggestions := r.feedback.suggestions.getD []
    detailed_feedback := r.feedback.detailed_feedback
    improvement_tips := r.feedback.improvement_tips
    scoring_model_version := "nlp_v1.0" }

/-- `QuestionManager.update_question_average_score` (question_manager.py
lines 384-394): first score is stored as is, afterwards
`int((average_score + new_score) / 2)` — Python float division followed by
truncation toward zero. -/
def update_question_average_score (average_score : Option ℤ) (new_score : ℤ) : ℤ :=
  match average_score with
  | none => new_score
  | some avg => pyInt (((avg : ℚ) + (new_score : ℚ)) / 2)

/-- A point at which the background task's `try` body raises: nowhere, in
the scoring stage (anything up to and including building the score row and
the commit), or inside the post-commit `update_question_average_score`
call.  The carried string is the exception's message. -/
inductive TaskFailure where
  | ok
  | scoring (msg : String)
  | avgUpdate (msg : String)
  deriving Repr, DecidableEq

/-- The database state visible after one `db.commit()` of a background
task: the response row's status and error message, the score row inserted
for it (if any), and the question's running average. -/
structure CommitView where
  status : String
  error_message : Option String
  score : Option ScoreRecord
  average_score : Option ℤ
  deriving Repr, DecidableEq

/-- `process_text_response` (interview.py lines 433-500) as the sequence
of database states each `db.commit()` publishes, given the response id,
the cleaned text handed over by the endpoint, the question content and
type, the outcomes of the two external calls, the question's prior
average, and where (if anywhere) the task body raises.  On the normal
path the first commit atomically sets `status="completed"` and inserts the
score row, and the second commit (inside
`update_question_average_score`) updates the question average; a raise
before the first commit reaches the `except` handler, which commits
`status="failed"` with the message and no score row; a raise inside the
average update happens after the completed commit, and the handler then
commits `status="failed"` over it while the score row stays. -/
def process_text_response (response_id : ℕ) (text question question_type : String)
    (oracle : OracleOutcome) (narrative : NarrativeOutcome)
    (average_score : Option ℤ) (failure : TaskFailure) : List CommitView :=
  match failure with
  | .scoring msg =>
      [{ status := "failed", error_message := some msg, score := none,
         average_score := average_score }]
  | .ok =>
      let result := score_response text question question_type oracle narrative
      let score := mk_response_score response_id result
      [{ status := "completed", error_message := none, score := some score,
         average_score := average_score },
       { status := "completed", error_message := none, score := some score,
         average_score :=
           some (update_question_average_score average_score result.scores.overall_score) }]
  | .avgUpdate msg =>
      let result := score_response text question question_type oracle narrative
      let score := mk_response_score response_id result
      [{ status := "completed", error_message := none, score := some score,
         average_score := average_score },
       { status := "failed", error_message := some msg, score := some score,
         average_score := average_score }]

/-- Outcome of `AudioProcessor.process_audio_file`: transcript text with a
confidence and duration, or a raised transcription error. -/
inductive TranscriptionOutcome where
  | ok (text : String) (confidence : ℚ) (duration : ℚ)
  | error (msg : String)
  deriving Repr, DecidableEq

/-- `process_audio_response` (interview.py lines 503-587) as its commit
sequence.  A transcription failure raises inside the `try` body and so
lands in the same `except` handler as any other pre-commit raise; on
success the transcribed text is cleaned with `clean_text_input` and scored
exactly as a text response (the transcription metadata written to the
response row travels in the same first commit and is not tracked
further). -/
def process_audio_response (response_id : ℕ)
    (transcription : TranscriptionOutcome) (question question_type : String)
    (oracle : OracleOutcome) (narrative : NarrativeOutcome)
    (average_score : Option ℤ) (failure : TaskFailure) : List CommitView :=
  match failure with
  | .scoring msg =>
      [{ status := "failed", error_message := some msg, score := none,
         average_score := average_score }]
  | _ =>
      match transcription with
      | .error msg =>
          [{ status := "failed", error_message := some msg, score := none,
             average_score := average_score }]
      | .ok transcribed _confidence _duration =>
          process_text_response response_id (clean_text_input transcribed)
            question question_type oracle narrative average_score failure

/-- The last committed state of a background task run (the trace lists are
never empty; the default is unreachable). -/
def finalCommit (trace : List CommitView) : CommitView :=
  trace.getLastD { status := "", error_message := none, score := none, average_score := none }

theorem ratMin_eq (a b : ℚ) : ratMin a b = min a b := by
  rw [ratMin, min_def]

theorem ratMax_eq (a b : ℚ) : ratMax a b = max a b := by
  rw [ratMax, max_def]
  rcases lt_trichotomy a b with h | h | h
  · rw [if_neg (not_le.mpr h), if_pos (le_of_lt h)]
  · simp [h]
  · rw [if_pos (le_of_lt h), if_neg (not_le.mpr h)]

theorem intMin_eq (a b : ℤ) : intMin a b = min a b := by
  rw [intMin, min_def]

theorem intMax_eq (a b : ℤ) : intMax a b = max a b := by
  rw [intMax, max_def]
  rcases lt_trichotomy a b with h | h | h
  · rw [if_neg (not_le.mpr h), if_pos (le_of_lt h)]
  · simp [h]
  · rw [if_pos (le_of_lt h), if_neg (not_le.mpr h)]

/-- Truncation toward zero is the floor on nonnegative arguments. -/
theorem pyInt_of_nonneg {q : ℚ} (h : 0 ≤ q) : pyInt q = ⌊q⌋ := by
  rw [pyInt, if_pos h]

/-- A rational in `[0, 100]` truncates into `[0, 100]`. -/
theorem pyInt_bounds {q : ℚ} (h0 : 0 ≤ q) (h1 : q ≤ 100) :
    0 ≤ pyInt q ∧ pyInt q ≤ 100 := by
  rw [pyInt_of_nonneg h0]
  constructor
  · exact Int.floor_nonneg.mpr h0
  · calc ⌊q⌋ ≤ ⌊(100 : ℚ)⌋ := Int.floor_le_floor h1
    _ = 100 := by norm_num

/-- The filler-word ratio is never negative. -/
theorem filler_words_ratio_nonneg (text : String) :
    0 ≤ (analyze_basic_metrics text).filler_words_ratio := by
  rw [analyze_basic_metrics]
  exact div_nonneg (Nat.cast_nonneg _) (Nat.cast_nonneg _)

/-- The three clamped fields of a fallback judgment lie in `[0, 100]`, and
its base lies in `[40, 85]`. -/
theorem fallback_scores_bounds (text qt : String) :
    ∀ v, ((get_fallback_scores text qt).content_relevance = some v ∨
          (get_fallback_scores text qt).communication_clarity = some v ∨
          (get_fallback_scores text qt).structure_organization = some v) →
      0 ≤ v ∧ v ≤ 100 := by
  have hbase : (40 : ℚ) ≤ ratMin 85 (ratMax 40 (((pySplit text).length : ℚ) * 2)) ∧
      ratMin 85 (ratMax 40 (((pySplit text).length : ℚ) * 2)) ≤ 85 := by
    rw [ratMin_eq, ratMax_eq]
    exact ⟨le_min (by norm_num) (le_max_left _ _), min_le_left _ _⟩
  intro v hv
  rw [get_fallback_scores] at hv
  simp only [Option.some.injEq] at hv
  rcases hv with h | h | h <;> rw [← h] <;>
    exact ⟨by linarith [hbase.1], by linarith [hbase.2]⟩

/-- The clamp `max(0, min(100, int(v)))` of `_parse_ai_response` lands in
`[0, 100]` (read back into `ℚ`). -/
theorem parse_clamp_bounds (v : ℚ) :
    0 ≤ ((intMax 0 (intMin 100 (pyInt v)) : ℤ) : ℚ) ∧
    ((intMax 0 (intMin 100 (pyInt v)) : ℤ) : ℚ) ≤ 100 := by
  rw [intMax_eq, intMin_eq]
  constructor
  · exact_mod_cast le_max_left 0 _
  · exact_mod_cast max_le (by norm_num) (min_le_left _ _)

/-- C3: the strengths list persisted in the ScoreRecord of every
successfully completed text evaluation is the empty list, because the
feedback dictionary `score_response` returns never carries a `strengths`
key and the `.get('strengths', [])` default is always taken: the
fallback-strength guarantee lives in `FeedbackGenerator._identify_strengths`,
which the pipeline never calls. -/
theorem c3_persisted_strengths_empty (rid : ℕ) (text question qt : String)
    (oracle : OracleOutcome) (narrative : NarrativeOutcome) (avg : Option ℤ) :
    ((finalCommit (process_text_response rid text question qt oracle narrative avg .ok)).score.map
        (fun s => s.strengths)) = some [] := by
  simp only [process_text_response, finalCommit, List.getLastD, List.getLast?, mk_response_score,
    score_response, Option.map_some]
  split
  · rfl
  · rfl

/-- C4 (counterexample): the input "good great excellent achieved" holds
four words of the positive lexicon and none of the negative one, so the
spec's described computation yields a strictly positive sentiment, yet the
score the pipeline stores for it is 0. -/
theorem c4_counterexample :
    (score_response "good great excellent achieved" "q" "behavioral" .error .error).scores.sentiment_score = 0 ∧
    0 < spec_described_sentiment "good great excellent achieved" := by
  constructor
  · rw [score_response, if_neg (by decide)]
    simp [calculate_final_scores, analyze_sentiment]
  · have hsplit : pySplit "good great excellent achieved" =
        ["good", "great", "excellent", "achieved"] := by decide
    rw [spec_described_sentiment, hsplit]
    norm_num +decide [ratMin, ratMax, Nat.max_def]

/-- C4 (amended): the stored sentiment score is 0 for every input — the
scorer's tokenizer is permanently disabled (`self.nlp = None`), so the
positive/negative word counting the spec describes is dead code. -/
theorem c4_amended (text question qt : String) (oracle : OracleOutcome)
    (narrative : NarrativeOutcome) :
    (score_response text question qt oracle narrative).scores.sentiment_score = 0 := by
  rw [score_response]
  split
  · rfl
  · simp [calculate_final_scores, analyze_sentiment]

/-- C7 (counterexample): `submit_text_response` creates the response row
already in status "processing", not "pending". -/
theorem c7_counterexample :
    (submit_text_response 1 2 "I organized my work and finished the task.").status = "processing" ∧
    "processing" ≠ "pending" := by
  exact ⟨rfl, by decide⟩

/-- C7 (amended): both submission endpoints create the record directly in
status "processing" (a "pending" record is never observable), and the
background task then leaves it in "completed" or "failed". -/
theorem c7_amended (u q rid : ℕ) (text question qt : String) (oracle : OracleOutcome)
    (narrative : NarrativeOutcome) (avg : Option ℤ) (failure : TaskFailure) :
    (submit_text_response u q text).status = "processing" ∧
    (submit_audio_response u q).status = "processing" ∧
    ((finalCommit (process_text_response rid text question qt oracle narrative avg failure)).status = "completed" ∨
     (finalCommit (process_text_response rid text question qt oracle narrative avg failure)).status = "failed") := by
  refine ⟨rfl, rfl, ?_⟩
  cases failure <;> simp [process_text_response, finalCommit]

/-- C8 (counterexample): `update_question_average_score` truncates rather
than rounds: a prior average of 70 and a new score of 73 give 71, not the
72 the claim computes. -/
theorem c8_counterexample :
    update_question_average_score (some 70) 73 = 71 ∧ (71 : ℤ) ≠ 72 := by
  constructor
  · norm_num [update_question_average_score, pyInt]
  · decide

/-- C8 (amended): with no prior average the new score is stored as is;
otherwise the new average is the floor of `(old + new) / 2` (Python
`int()` truncation, which is the floor whenever `old + new` is
nonnegative), so 70 and 73 give 71. -/
theorem c8_amended (old new_score : ℤ) (h : 0 ≤ old + new_score) :
    update_question_average_score none new_score = new_score ∧
    update_question_average_score (some old) new_score = ⌊(((old : ℚ) + (new_score : ℚ)) / 2)⌋ := by
  refine ⟨rfl, ?_⟩
  rw [update_question_average_score, pyInt_of_nonneg]
  apply div_nonneg _ (by norm_num)
  exact_mod_cast h

theorem c8_amended_witness : update_question_average_score (some 70) 73 = 71 := by
  rw [(c8_amended 70 73 (by norm_num)).2]
  norm_num

/-- C9 (counterexample): when the exception is raised inside the
post-commit question-average update, the handler flips the response to
"failed" although the completed commit already persisted its ScoreRecord:
the failure branch does not always leave the store without a ScoreRecord. -/
theorem c9_counterexample :
    ((finalCommit (process_text_response 3 "alpha beta gamma" "Tell me about a project" "behavioral"
        .error .error (some 50) (.avgUpdate "lost connection"))).status = "failed" ∧
     ((finalCommit (process_text_response 3 "alpha beta gamma" "Tell me about a project" "behavioral"
        .error .error (some 50) (.avgUpdate "lost connection"))).score).isSome = true) := by
  constructor <;> simp [process_text_response, finalCommit]

/-- C9 (amended): every commit that shows "completed" carries the
ScoreRecord inserted in that same commit; an exception raised before that
commit ends the run "failed" with the message and no ScoreRecord; an
exception raised inside the post-commit average update ends the run
"failed" while the already-committed ScoreRecord remains. -/
theorem c9_amended (rid : ℕ) (text question qt : String) (oracle : OracleOutcome)
    (narrative : NarrativeOutcome) (avg : Option ℤ) (failure : TaskFailure) :
    (∀ v ∈ process_text_response rid text question qt oracle narrative avg failure,
        v.status = "completed" → v.score.isSome = true) ∧
    (∀ msg, failure = .scoring msg →
        (finalCommit (process_text_response rid text question qt oracle narrative avg failure)).status = "failed" ∧
        (finalCommit (process_text_response rid text question qt oracle narrative avg failure)).error_message = some msg ∧
        (finalCommit (process_text_response rid text question qt oracle narrative avg failure)).score = none) ∧
    (∀ msg, failure = .avgUpdate msg →
        (finalCommit (process_text_response rid text question qt oracle narrative avg failure)).status = "failed" ∧
        ((finalCommit (process_text_response rid text question qt oracle narrative avg failure)).score).isSome = true) := by
  refine ⟨?_, ?_, ?_⟩ <;> cases failure <;>
    simp +decide [process_text_response, finalCommit]

theorem c9_amended_witness :
    (finalCommit (process_text_response 1 "hello there everyone" "q" "behavioral" .error .error none
        (.scoring "boom"))).score = none :=
  ((c9_amended 1 "hello there everyone" "q" "behavioral" .error .error none
      (.scoring "boom")).2.1 "boom" rfl).2.2

/-- C2 (counterexample): for a 25-word response to a technical question
whose oracle reply is unparseable, the fallback judgment is computed from
the empty string and question type "general", so its base is 40 and its
technical field is absent — not the `clamp(40, 25 * 2, 85) = 50` base and
present technical field the claim derives from the submitted text. -/
theorem c2_counterexample :
    (score_response (joinSpace (List.replicate 25 "alpha")) "Explain joins" "technical"
        (.ok none) .error).scores.content_relevance_score = 40 ∧
    (score_response (joinSpace (List.replicate 25 "alpha")) "Explain joins" "technical"
        (.ok none) .error).scores.technical_accuracy_score = none ∧
    ratMin 85 (ratMax 40 ((25 : ℚ) * 2)) = 50 := by
  refine ⟨?_, ?_, ?_⟩
  · rw [score_response, if_neg (by decide)]
    have hps : pySplit "" = ([] : List String) := by decide
    simp only [calculate_final_scores, get_ai_scores, parse_ai_response, get_fallback_scores,
      hps]
    norm_num [ratMin, ratMax, pyInt]
  · rw [score_response, if_neg (by decide)]
    simp +decide only [calculate_final_scores, get_ai_scores, parse_ai_response,
      get_fallback_scores]
  · norm_num [ratMin, ratMax]

/-- C2 (amended): a network/service error produces the fallback judgment
from the analyzed response text and actual question type — base
`clamp(40, word_count * 2, 85)`, clarity = base − 5, structure = base − 10,
technical = base only for technical questions — whereas an unparseable
response produces it from the empty string and question type "general", so
its base is always 40 (clarity 35, structure 30) and its technical field
is always absent. -/
theorem c2_amended (text question qt : String) :
    (get_ai_scores text question qt .error).content_relevance
        = some (min 85 (max 40 (((pySplit text).length : ℚ) * 2))) ∧
    (get_ai_scores text question qt .error).communication_clarity
        = some (min 85 (max 40 (((pySplit text).length : ℚ) * 2)) - 5) ∧
    (get_ai_scores text question qt .error).structure_organization
        = some (min 85 (max 40 (((pySplit text).length : ℚ) * 2)) - 10) ∧
    (get_ai_scores text question qt .error).technical_accuracy
        = (if qt = "technical"
            then some (min 85 (max 40 (((pySplit text).length : ℚ) * 2))) else none) ∧
    (get_ai_scores text question qt (.ok none)).content_relevance = some 40 ∧
    (get_ai_scores text question qt (.ok none)).communication_clarity = some 35 ∧
    (get_ai_scores text question qt (.ok none)).structure_organization = some 30 ∧
    (get_ai_scores text question qt (.ok none)).technical_accuracy = none := by
  have h40 : ratMin 85 (ratMax 40 (((pySplit "").length : ℚ) * 2)) = 40 := by
    norm_num +decide [ratMin, ratMax, pySplit, wordsByAux]
  simp only [get_ai_scores, parse_ai_response, get_fallback_scores, ratMin_eq, ratMax_eq,
    String.reduceEq, h40]
  norm_num [← ratMin_eq, ← ratMax_eq, h40]

/-- C6 (counterexample): the stored technical score ignores the question
type and uses Python truthiness: a behavioral question whose oracle reply
carries technical 80 stores `some 80` (claim: null), while a technical
question whose oracle reply carries technical 0 stores `none` (claim:
non-null). -/
theorem c6_counterexample :
    (score_response "alpha beta gamma" "Explain polymorphism" "behavioral"
        (.ok (some { content_relevance := some 90, communication_clarity := some 85,
                     structure_organization := some 88, technical_accuracy := some 80,
                     strengths := [], weaknesses := [], suggestions := [] }))
        .error).scores.technical_accuracy_score = some 80 ∧
    (score_response "alpha beta gamma" "Explain polymorphism" "technical"
        (.ok (some { content_relevance := some 90, communication_clarity := some 85,
                     structure_organization := some 88, technical_accuracy := some 0,
                     strengths := [], weaknesses := [], suggestions := [] }))
        .error).scores.technical_accuracy_score = none := by
  constructor
  · rw [score_response, if_neg (by decide)]
    simp only [calculate_final_scores, get_ai_scores, parse_ai_response]
    norm_num [pyInt]
  · rw [score_response, if_neg (by decide)]
    simp +decide only [calculate_final_scores, get_ai_scores, parse_ai_response]

/-- C6 (amended): for every question type alike, the stored technical
score is non-null exactly when the supplied technical value is present and
non-zero (Python `int(t) if t else None`), and then it stores the
truncated value; the question type only governs whether technical enters
the overall mean. -/
theorem c6_amended (basic : BasicMetrics) (sentiment : SentimentAnalysis)
    (struct : StructureAnalysis) (confidence : ConfidenceAnalysis)
    (ai : AIScores) (qt : String) :
    ((calculate_final_scores basic sentiment struct confidence ai qt).technical_accuracy_score ≠ none
       ↔ ∃ t, ai.technical_accuracy = some t ∧ t ≠ 0) ∧
    (∀ t, ai.technical_accuracy = some t → t ≠ 0 →
       (calculate_final_scores basic sentiment struct confidence ai qt).technical_accuracy_score
         = some (pyInt t)) := by
  simp only [calculate_final_scores]
  cases h : ai.technical_accuracy with
  | none => simp [h]
  | some t =>
      by_cases ht : t = 0
      · simp [h, ht]
      · simp [h, ht]

theorem c6_amended_witness :
    (calculate_final_scores ⟨3, 1, 3, 3, 0, 0, 100, 0⟩ ⟨0, "neutral"⟩
        ⟨70, false, true, false, 1⟩ ⟨1/2, 0, 0, "medium"⟩
        ⟨some 90, some 85, some 88, some 80, [], [], []⟩
        "behavioral").technical_accuracy_score = some 80 := by
  have h := (c6_amended ⟨3, 1, 3, 3, 0, 0, 100, 0⟩ ⟨0, "neutral"⟩
      ⟨70, false, true, false, 1⟩ ⟨1/2, 0, 0, "medium"⟩
      ⟨some 90, some 85, some 88, some 80, [], [], []⟩
      "behavioral").2 80 rfl (by norm_num)
  rw [h]
  norm_num [pyInt]

/-- C10: an audio submission whose transcription is empty or
whitespace-only (its Python `split()` is empty) is not a failure: the
cleaned text is empty, the scorer takes the `_create_empty_score` early
return, the persisted ScoreRecord carries the all-zero shape with null
technical score and the placeholder feedback strings, and the response
ends "completed". -/
theorem c10_confirmed (rid : ℕ) (t question qt : String) (conf dur : ℚ)
    (oracle : OracleOutcome) (narrative : NarrativeOutcome) (avg : Option ℤ)
    (h : pySplit t = []) :
    (finalCommit (process_audio_response rid (.ok t conf dur) question qt oracle narrative
        avg .ok)).status = "completed" ∧
    (finalCommit (process_audio_response rid (.ok t conf dur) question qt oracle narrative
        avg .ok)).score
      = some { response_id := rid, overall_score := 0, content_relevance_score := 0,
               communication_clarity_score := 0, structure_organization_score := 0,
               technical_accuracy_score := none, sentiment_score := 0,
               confidence_indicators := 0, filler_words_count := 0, word_count := 0,
               unique_words_count := 0, strengths := [], weaknesses := [], suggestions := [],
               detailed_feedback := "No response provided for analysis.",
               improvement_tips := "Please provide a response to receive feedback.",
               scoring_model_version := "nlp_v1.0" } := by
  have hclean : clean_text_input t = "" := by
    rw [clean_text_input]
    split
    · rfl
    · rw [h]; decide
  have hscore : score_response (clean_text_input t) question qt oracle narrative
      = create_empty_score := by
    rw [hclean, score_response, if_pos (by decide)]
  simp only [process_audio_response, process_text_response, finalCommit, List.getLastD,
    hscore]
  exact ⟨rfl, rfl⟩

theorem c10_confirmed_witness :
    (finalCommit (process_audio_response 5 (.ok " " (3/4) 2) "Describe a queue" "technical"
        .error .error none .ok)).status = "completed" :=
  (c10_confirmed 5 " " "Describe a queue" "technical" (3/4) 2 .error .error none (by decide)).1

/-- The clarity value after the filler penalty, `max(0, base - min(20,
ratio * 100))`, stays in `[0, 100]` when the base does and the ratio is
nonnegative. -/
theorem clarity_adjusted_bounds (basic : BasicMetrics) (ai : AIScores)
    (hratio : 0 ≤ basic.filler_words_ratio)
    (hcl : 0 ≤ ai.communication_clarity.getD 70 ∧ ai.communication_clarity.getD 70 ≤ 100) :
    0 ≤ ratMax 0 (ai.communication_clarity.getD 70
        - ratMin 20 (basic.filler_words_ratio * 100)) ∧
    ratMax 0 (ai.communication_clarity.getD 70
        - ratMin 20 (basic.filler_words_ratio * 100)) ≤ 100 := by
  have hpen : 0 ≤ ratMin 20 (basic.filler_words_ratio * 100) := by
    rw [ratMin_eq]
    exact le_min (by norm_num) (mul_nonneg hratio (by norm_num))
  rw [ratMax_eq]
  exact ⟨le_max_left _ _, max_le (by norm_num) (by linarith [hcl.2, hpen])⟩

/-- The structure value after the heuristic nudge is clamped into
`[0, 100]` outright. -/
theorem structure_adjusted_bounds (struct : StructureAnalysis) (ai : AIScores) :
    0 ≤ ratMax 0 (ratMin 100 (ai.structure_organization.getD 70
        + ((struct.structure_score : ℚ) - 70) * (3 / 10))) ∧
    ratMax 0 (ratMin 100 (ai.structure_organization.getD 70
        + ((struct.structure_score : ℚ) - 70) * (3 / 10))) ≤ 100 := by
  rw [ratMax_eq, ratMin_eq]
  exact ⟨le_max_left _ _, max_le (by norm_num) (min_le_left _ _)⟩

/-- The three clamped component scores `_calculate_final_scores` stores
lie in `[0, 100]` whenever the content and clarity base values it reads
do — unconditionally in the technical value, which they never touch. -/
theorem final_scores_component_bounds (basic : BasicMetrics) (sentiment : SentimentAnalysis)
    (struct : StructureAnalysis) (confidence : ConfidenceAnalysis)
    (ai : AIScores) (qt : String)
    (hratio : 0 ≤ basic.filler_words_ratio)
    (hc : 0 ≤ ai.content_relevance.getD 70 ∧ ai.content_relevance.getD 70 ≤ 100)
    (hcl : 0 ≤ ai.communication_clarity.getD 70 ∧ ai.communication_clarity.getD 70 ≤ 100) :
    (0 ≤ (calculate_final_scores basic sentiment struct confidence ai qt).content_relevance_score ∧
       (calculate_final_scores basic sentiment struct confidence ai qt).content_relevance_score ≤ 100) ∧
    (0 ≤ (calculate_final_scores basic sentiment struct confidence ai qt).communication_clarity_score ∧
       (calculate_final_scores basic sentiment struct confidence ai qt).communication_clarity_score ≤ 100) ∧
    (0 ≤ (calculate_final_scores basic sentiment struct confidence ai qt).structure_organization_score ∧
       (calculate_final_scores basic sentiment struct confidence ai qt).structure_organization_score ≤ 100) := by
  have hclval := clarity_adjusted_bounds basic ai hratio hcl
  have hstval := structure_adjusted_bounds struct ai
  simp only [calculate_final_scores]
  exact ⟨pyInt_bounds hc.1 hc.2, pyInt_bounds hclval.1 hclval.2,
    pyInt_bounds hstval.1 hstval.2⟩

/-- The overall mean and the stored technical value stay in `[0, 100]`
provided any supplied technical value does (the three other summands are
bounded on their own). -/
theorem final_scores_overall_bounds (basic : BasicMetrics) (sentiment : SentimentAnalysis)
    (struct : StructureAnalysis) (confidence : ConfidenceAnalysis)
    (ai : AIScores) (qt : String)
    (hratio : 0 ≤ basic.filler_words_ratio)
    (hc : 0 ≤ ai.content_relevance.getD 70 ∧ ai.content_relevance.getD 70 ≤ 100)
    (hcl : 0 ≤ ai.communication_clarity.getD 70 ∧ ai.communication_clarity.getD 70 ≤ 100)
    (htech : ∀ t, ai.technical_accuracy = some t → 0 ≤ t ∧ t ≤ 100) :
    (0 ≤ (calculate_final_scores basic sentiment struct confidence ai qt).overall_score ∧
       (calculate_final_scores basic sentiment struct confidence ai qt).overall_score ≤ 100) ∧
    (∀ ts, (calculate_final_scores basic sentiment struct confidence ai qt).technical_accuracy_score = some ts →
       0 ≤ ts ∧ ts ≤ 100) := by
  have hclval := clarity_adjusted_bounds basic ai hratio hcl
  have hstval := structure_adjusted_bounds struct ai
  simp only [calculate_final_scores]
  refine ⟨?_, ?_⟩
  · rcases h : ai.technical_accuracy with _ | t
    · simp only [h, List.append_nil, List.sum_cons, List.sum_nil, List.length_cons,
        List.length_nil]
      refine pyInt_bounds (div_nonneg (by linarith [hc.1, hclval.1, hstval.1]) (by norm_num)) ?_
      rw [div_le_iff₀ (by norm_num)]
      push_cast
      linarith [hc.1, hc.2, hclval.1, hclval.2, hstval.1, hstval.2]
    · have ht := htech t h
      by_cases hq : qt = "technical"
      · simp +decide only [h, hq, ite_true, List.cons_append, List.nil_append, List.sum_cons,
          List.sum_nil, List.length_cons, List.length_nil]
        refine pyInt_bounds
          (div_nonneg (by linarith [hc.1, hclval.1, hstval.1, ht.1]) (by norm_num)) ?_
        rw [div_le_iff₀ (by norm_num)]
        push_cast
        linarith [hc.1, hc.2, hclval.1, hclval.2, hstval.1, hstval.2, ht.1, ht.2]
      · simp only [h, if_neg hq, List.append_nil, List.sum_cons, List.sum_nil,
          List.length_cons, List.length_nil]
        refine pyInt_bounds (div_nonneg (by linarith [hc.1, hclval.1, hstval.1]) (by norm_num)) ?_
        rw [div_le_iff₀ (by norm_num)]
        push_cast
        linarith [hc.1, hc.2, hclval.1, hclval.2, hstval.1, hstval.2]
  · intro ts hts
    rcases h : ai.technical_accuracy with _ | t
    · simp only [h] at hts
      exact Option.noConfusion hts
    · have ht := htech t h
      simp only [h] at hts
      by_cases ht0 : t = 0
      · simp only [if_pos ht0] at hts
        exact Option.noConfusion hts
      · simp only [if_neg ht0, Option.some.injEq] at hts
        rw [← hts]
        exact pyInt_bounds ht.1 ht.2

/-- The fallback base `min(85, max(40, word_count * 2))` lies in `[40, 85]`. -/
theorem fallback_base_bounds (text : String) :
    40 ≤ ratMin 85 (ratMax 40 (((pySplit text).length : ℚ) * 2)) ∧
    ratMin 85 (ratMax 40 (((pySplit text).length : ℚ) * 2)) ≤ 85 := by
  rw [ratMin_eq, ratMax_eq]
  exact ⟨le_min (by norm_num) (le_max_left _ _), min_le_left _ _⟩

/-- Whatever the oracle outcome, the content and clarity base values that
`_calculate_final_scores` reads (key lookup with default 70) lie in
`[0, 100]`: the fallback keeps them in `[30, 85]` and the parse path
clamps them. -/
theorem get_ai_scores_base_bounds (text question qt : String) (oracle : OracleOutcome) :
    (0 ≤ (get_ai_scores text question qt oracle).content_relevance.getD 70 ∧
       (get_ai_scores text question qt oracle).content_relevance.getD 70 ≤ 100) ∧
    (0 ≤ (get_ai_scores text question qt oracle).communication_clarity.getD 70 ∧
       (get_ai_scores text question qt oracle).communication_clarity.getD 70 ≤ 100) := by
  cases oracle with
  | error =>
      have hb := fallback_base_bounds text
      simp only [get_ai_scores, get_fallback_scores, Option.getD_some]
      exact ⟨⟨by linarith [hb.1], by linarith [hb.2]⟩, ⟨by linarith [hb.1], by linarith [hb.2]⟩⟩
  | ok parsed =>
      cases parsed with
      | none =>
          have hb := fallback_base_bounds ""
          simp only [get_ai_scores, parse_ai_response, get_fallback_scores, Option.getD_some]
          exact ⟨⟨by linarith [hb.1], by linarith [hb.2]⟩,
            ⟨by linarith [hb.1], by linarith [hb.2]⟩⟩
      | some p =>
          simp only [get_ai_scores, parse_ai_response]
          constructor
          · cases p.content_relevance with
            | none => norm_num
            | some v => exact parse_clamp_bounds v
          · cases p.communication_clarity with
            | none => norm_num
            | some v => exact parse_clamp_bounds v

/-- The final commit of a two-commit trace is the second commit. -/
theorem finalCommit_pair (a b : CommitView) : finalCommit [a, b] = b := rfl

/-- C1 (counterexample): `_parse_ai_response` clamps only the three
non-technical fields, so an oracle reply with `technical_accuracy = 150`
on a technical question persists a ScoreRecord whose technical score is
150 and whose overall score is 107 — both outside `[0, 100]`. -/
theorem c1_counterexample :
    ((finalCommit (process_text_response 7 "alpha beta gamma" "Explain mutexes" "technical"
        (.ok (some { content_relevance := some 100, communication_clarity := some 100,
                     structure_organization := some 100, technical_accuracy := some 150,
                     strengths := [], weaknesses := [], suggestions := [] }))
        .error (some 50) .ok)).score.map
      (fun s => (s.technical_accuracy_score, s.overall_score))) = some (some 150, 107) ∧
    ¬ ((150 : ℤ) ≤ 100) ∧ ¬ ((107 : ℤ) ≤ 100) := by
  refine ⟨?_, by decide, by decide⟩
  have hstrip : pyStrip "alpha beta gamma" = "alpha beta gamma" := by decide
  have hp : preprocess_text "alpha beta gamma" = "alpha beta gamma" := by decide
  have hsplit : pySplit "alpha beta gamma" = ["alpha", "beta", "gamma"] := by decide
  have hsent : splitSentences "alpha beta gamma" = ["alpha beta gamma"] := by decide
  have htec : (score_response "alpha beta gamma" "Explain mutexes" "technical"
      (.ok (some { content_relevance := some 100, communication_clarity := some 100,
                   structure_organization := some 100, technical_accuracy := some 150,
                   strengths := [], weaknesses := [], suggestions := [] }))
      .error).scores.technical_accuracy_score = some 150 := by
    rw [score_response, if_neg (by rw [hstrip]; decide)]
    simp +decide only [calculate_final_scores, get_ai_scores, parse_ai_response]
  have hov : (score_response "alpha beta gamma" "Explain mutexes" "technical"
      (.ok (some { content_relevance := some 100, communication_clarity := some 100,
                   structure_organization := some 100, technical_accuracy := some 150,
                   strengths := [], weaknesses := [], suggestions := [] }))
      .error).scores.overall_score = 107 := by
    rw [score_response, if_neg (by rw [hstrip]; decide)]
    rw [hp]
    norm_num +decide [calculate_final_scores, analyze_basic_metrics, analyze_structure,
      get_ai_scores, parse_ai_response, hsplit, hsent, ratMin, ratMax, intMin, intMax,
      pyInt, Nat.min_def, Nat.max_def]
  simp only [process_text_response]
  rw [finalCommit_pair]
  simp only [mk_response_score, htec, hov]
  rfl

/-- C1 (amended): after parsing, only content, clarity and structure are
clamped to `[0, 100]`; the persisted content, clarity and structure scores
always lie in `[0, 100]` — with no condition on the technical reply — and
the overall and stored technical scores do whenever any supplied technical
value lies in `[0, 100]` itself; an unclamped technical value outside that
range escapes into the record. -/
theorem c1_amended (text question qt : String) (oracle : OracleOutcome)
    (narrative : NarrativeOutcome) :
    (0 ≤ (score_response text question qt oracle narrative).scores.content_relevance_score ∧
       (score_response text question qt oracle narrative).scores.content_relevance_score ≤ 100) ∧
    (0 ≤ (score_response text question qt oracle narrative).scores.communication_clarity_score ∧
       (score_response text question qt oracle narrative).scores.communication_clarity_score ≤ 100) ∧
    (0 ≤ (score_response text question qt oracle narrative).scores.structure_organization_score ∧
       (score_response text question qt oracle narrative).scores.structure_organization_score ≤ 100) ∧
    ((∀ t, (get_ai_scores (preprocess_text text) question qt oracle).technical_accuracy
        = some t → 0 ≤ t ∧ t ≤ 100) →
      (0 ≤ (score_response text question qt oracle narrative).scores.overall_score ∧
         (score_response text question qt oracle narrative).scores.overall_score ≤ 100) ∧
      (∀ ts, (score_response text question qt oracle narrative).scores.technical_accuracy_score
          = some ts → 0 ≤ ts ∧ ts ≤ 100)) := by
  rw [score_response]
  by_cases he : pyStrip text = ""
  · rw [if_pos he]
    simp only [create_empty_score]
    refine ⟨⟨by norm_num, by norm_num⟩, ⟨by norm_num, by norm_num⟩,
      ⟨by norm_num, by norm_num⟩, ?_⟩
    intro _
    refine ⟨⟨by norm_num, by norm_num⟩, ?_⟩
    intro ts hts
    exact Option.noConfusion hts
  · rw [if_neg he]
    have hcomp := final_scores_component_bounds (analyze_basic_metrics (preprocess_text text))
      (analyze_sentiment (preprocess_text text)) (analyze_structure (preprocess_text text))
      (analyze_confidence (preprocess_text text))
      (get_ai_scores (preprocess_text text) question qt oracle) qt
      (filler_words_ratio_nonneg _)
      (get_ai_scores_base_bounds _ question qt oracle).1
      (get_ai_scores_base_bounds _ question qt oracle).2
    refine ⟨hcomp.1, hcomp.2.1, hcomp.2.2, ?_⟩
    intro htech
    exact final_scores_overall_bounds _ _ _ _ _ _ (filler_words_ratio_nonneg _)
      (get_ai_scores_base_bounds _ question qt oracle).1
      (get_ai_scores_base_bounds _ question qt oracle).2 htech

theorem c1_amended_witness :
    0 ≤ (score_response "alpha beta gamma" "Explain mutexes" "technical"
        .error .error).scores.overall_score ∧
    (score_response "alpha beta gamma" "Explain mutexes" "technical"
        .error .error).scores.overall_score ≤ 100 := by
  have hp : preprocess_text "alpha beta gamma" = "alpha beta gamma" := by decide
  have hsplit : pySplit "alpha beta gamma" = ["alpha", "beta", "gamma"] := by decide
  have h40 : (get_ai_scores (preprocess_text "alpha beta gamma") "Explain mutexes"
      "technical" .error).technical_accuracy = some 40 := by
    rw [hp]
    simp +decide only [get_ai_scores, get_fallback_scores, hsplit]
    norm_num [ratMin, ratMax]
  have htech : ∀ t : ℚ, (get_ai_scores (preprocess_text "alpha beta gamma") "Explain mutexes"
      "technical" .error).technical_accuracy = some t → 0 ≤ t ∧ t ≤ 100 := by
    intro t ht
    rw [h40] at ht
    obtain rfl := Option.some.inj ht
    norm_num
  exact ((c1_amended "alpha beta gamma" "Explain mutexes" "technical" .error .error).2.2.2
    htech).1

/-- C5 (counterexample): `overall_score` uses Python `int()`, truncation
toward zero, not the floor: with adjusted components 0, 0, 0 and an
(unclamped) technical value −2 included for a technical question, the mean
is −1/2, its floor is −1, but the stored overall score is 0. -/
theorem c5_counterexample :
    (score_response "alpha beta gamma" "Explain indexes" "technical"
        (.ok (some { content_relevance := some 0, communication_clarity := some 0,
                     structure_organization := some 0, technical_accuracy := some (-2),
                     strengths := [], weaknesses := [], suggestions := [] }))
        .error).scores.content_relevance_score = 0 ∧
    (score_response "alpha beta gamma" "Explain indexes" "technical"
        (.ok (some { content_relevance := some 0, communication_clarity := some 0,
                     structure_organization := some 0, technical_accuracy := some (-2),
                     strengths := [], weaknesses := [], suggestions := [] }))
        .error).scores.communication_clarity_score = 0 ∧
    (score_response "alpha beta gamma" "Explain indexes" "technical"
        (.ok (some { content_relevance := some 0, communication_clarity := some 0,
                     structure_organization := some 0, technical_accuracy := some (-2),
                     strengths := [], weaknesses := [], suggestions := [] }))
        .error).scores.structure_organization_score = 0 ∧
    (score_response "alpha beta gamma" "Explain indexes" "technical"
        (.ok (some { content_relevance := some 0, communication_clarity := some 0,
                     structure_organization := some 0, technical_accuracy := some (-2),
                     strengths := [], weaknesses := [], suggestions := [] }))
        .error).scores.technical_accuracy_score = some (-2) ∧
    (score_response "alpha beta gamma" "Explain indexes" "technical"
        (.ok (some { content_relevance := some 0, communication_clarity := some 0,
                     structure_organization := some 0, technical_accuracy := some (-2),
                     strengths := [], weaknesses := [], suggestions := [] }))
        .error).scores.overall_score = 0 ∧
    ⌊(((0 : ℚ) + 0 + 0 + (-2)) / 4)⌋ = -1 ∧ ((-1 : ℤ) ≠ 0) := by
  have hstrip : pyStrip "alpha beta gamma" = "alpha beta gamma" := by decide
  have hp : preprocess_text "alpha beta gamma" = "alpha beta gamma" := by decide
  have hsplit : pySplit "alpha beta gamma" = ["alpha", "beta", "gamma"] := by decide
  have hsent : splitSentences "alpha beta gamma" = ["alpha beta gamma"] := by decide
  refine ⟨?_, ?_, ?_, ?_, ?_, by norm_num, by decide⟩ <;>
    rw [score_response, if_neg (by rw [hstrip]; decide)] <;> rw [hp] <;>
    norm_num +decide [calculate_final_scores, analyze_basic_metrics, analyze_structure,
      get_ai_scores, parse_ai_response, hsplit, hsent, ratMin, ratMax, intMin, intMax,
      pyInt, Nat.min_def, Nat.max_def]

/-- C5 (amended): the stored overall score is the Python `int()`
truncation (toward zero) of the mean of the adjusted content, clarity and
structure values, with the supplied technical value included exactly when
the question type is "technical" and the value is present; truncation
coincides with the floor whenever the mean is nonnegative, so the claim's
floor reading holds except when an unclamped negative technical value
drives the mean below zero. -/
theorem c5_amended (basic : BasicMetrics) (sentiment : SentimentAnalysis)
    (struct : StructureAnalysis) (confidence : ConfidenceAnalysis)
    (ai : AIScores) (qt : String) :
    ((qt ≠ "technical" ∨ ai.technical_accuracy = none) →
      (calculate_final_scores basic sentiment struct confidence ai qt).overall_score
        = pyInt ((ai.content_relevance.getD 70
            + max 0 (ai.communication_clarity.getD 70 - min 20 (basic.filler_words_ratio * 100))
            + max 0 (min 100 (ai.structure_organization.getD 70
                + ((struct.structure_score : ℚ) - 70) * (3 / 10)))) / 3)) ∧
    (∀ t, ai.technical_accuracy = some t → qt = "technical" →
      (calculate_final_scores basic sentiment struct confidence ai qt).overall_score
        = pyInt ((ai.content_relevance.getD 70
            + max 0 (ai.communication_clarity.getD 70 - min 20 (basic.filler_words_ratio * 100))
            + max 0 (min 100 (ai.structure_organization.getD 70
                + ((struct.structure_score : ℚ) - 70) * (3 / 10))) + t) / 4)) ∧
    (∀ q : ℚ, 0 ≤ q → pyInt q = ⌊q⌋) := by
  refine ⟨?_, ?_, fun q hq => pyInt_of_nonneg hq⟩
  · intro h
    rcases htc : ai.technical_accuracy with _ | t
    · simp only [calculate_final_scores, htc, List.append_nil, List.sum_cons, List.sum_nil,
        List.length_cons, List.length_nil, ratMin_eq, ratMax_eq]
      congr 1
      push_cast
      ring
    · have hq : qt ≠ "technical" := by
        rcases h with h | h
        · exact h
        · rw [h] at htc
          exact Option.noConfusion htc
      simp only [calculate_final_scores, htc, if_neg hq, List.append_nil, List.sum_cons,
        List.sum_nil, List.length_cons, List.length_nil, ratMin_eq, ratMax_eq]
      congr 1
      push_cast
      ring
  · intro t ht hq
    simp only [calculate_final_scores, ht, hq, ite_true, List.cons_append, List.nil_append,
      List.sum_cons, List.sum_nil, List.length_cons, List.length_nil, ratMin_eq, ratMax_eq]
    congr 1
    push_cast
    ring

theorem c5_amended_witness :
    (calculate_final_scores ⟨3, 1, 3, 3, 0, 0, 100, 0⟩ ⟨0, "neutral"⟩
      ⟨70, false, true, false, 1⟩ ⟨1/2, 0, 0, "medium"⟩
      ⟨some 50, some 50, some 50, none, [], [], []⟩ "behavioral").overall_score = 50 := by
  have h := (c5_amended ⟨3, 1, 3, 3, 0, 0, 100, 0⟩ ⟨0, "neutral"⟩
      ⟨70, false, true, false, 1⟩ ⟨1/2, 0, 0, "medium"⟩
      ⟨some 50, some 50, some 50, none, [], [], []⟩ "behavioral").1 (Or.inr rfl)
  rw [h]
  norm_num [pyInt, min_def, max_def]
